import Mathlib

/-
  Verification of the EUDR compliance dashboard (src/eudr-app.py).

  Shallow embedding conventions:
  * Coordinates are modelled as rationals (the Python floats carry exact
    decimal inputs in every scenario the spec states; the spec itself says
    "within floating-point tolerance" and the claims are about the exact
    arithmetic-mean formula, not rounding).
  * A spreadsheet cell that pandas reads as NaN (a missing value) is
    modelled as `none`.
  * The external HTTP call of `run_compliance_audit` is modelled by an
    explicit `HttpOutcome` argument: either the request raised
    (timeout / connection error), or a response arrived with a status code
    and a body that either failed or succeeded JSON parsing.
  * Streamlit session state (`st.session_state.manual_points` /
    `excel_points`) is modelled as an explicit `AppState` record, and the
    upload widget handler as a state-transition function returning the new
    state together with the message it displays (if any).
-/

namespace EudrApp

/-- A coordinate record, as built by the app: Python dicts
`\x7b'lat': ..., 'lon': ...\x7d` (manual entry, line 38) and the
`to_dict('records')` rows of the cleaned upload (line 30). -/
structure Point where
  lat : ℚ
  lon : ℚ
deriving DecidableEq, Repr

/-- The two session-state sequences (lines 13-16 of the source):
manually entered points and spreadsheet-imported points. -/
structure AppState where
  manual_points : List Point
  excel_points : List Point
deriving DecidableEq, Repr

/-- An uploaded table as pandas presents it after `pd.read_excel`:
a list of column names and a list of rows. Each row has one
`Option ℚ` cell per column, `none` standing for a NaN / missing value. -/
structure Table where
  cols : List String
  rows : List (List (Option ℚ))
deriving DecidableEq, Repr

/-- Python `str.lower()`: lowercase each character. -/
def pyLower (s : String) : String :=
  String.mk (s.data.map Char.toLower)

/-- Python `str.strip()`: remove leading and trailing whitespace. -/
def pyStrip (s : String) : String :=
  String.mk (((s.data.dropWhile Char.isWhitespace).reverse.dropWhile
    Char.isWhitespace).reverse)

/-- Whether the first list is an initial segment of the second. -/
def startsWithChars : List Char → List Char → Bool
  | [], _ => true
  | _ :: _, [] => false
  | a :: as, b :: bs => a == b && startsWithChars as bs

/-- Whether the needle occurs contiguously in the haystack. -/
def containsChars (needle : List Char) : List Char → Bool
  | [] => startsWithChars needle []
  | c :: rest => startsWithChars needle (c :: rest) || containsChars needle rest

/-- Python substring membership `sub in s`. -/
def pyContains (sub s : String) : Bool :=
  containsChars sub.data s.data

/-- Line 25: `df_upload.columns = [str(c).lower().strip() for c in ...]`. -/
def normCols (t : Table) : List String :=
  t.cols.map fun c => pyStrip (pyLower c)

/-- All positions of the columns bearing a given label, in order: pandas
label-based selection `df[[label]]` takes EVERY column whose name equals
the label, not only the first. -/
def idxsOfLabel (cols : List String) (label : String) : List ℕ :=
  (List.range cols.length).filter fun k => cols.get? k == some label

/-- The rename dictionary of line 30, `\x7blat_col: 'lat', lon_col: 'lon'\x7d`,
as the name map it induces. When `lat_col == lon_col` the Python dict
literal collapses to a single entry whose value is 'lon' (the later entry
wins), which the first test reproduces. -/
def renameMap (lat_col lon_col n : String) : String :=
  if n == lon_col then "lon"
  else if n == lat_col then "lat"
  else n

/-- `to_dict('records')` for one row over the selected column positions:
each selected column writes its (renamed) key in order, so with duplicate
renamed names the LAST duplicate's value survives. A component is `none`
when no selected column carries that key at all (a record can genuinely
lack the lat field). -/
def recordOfRow (cols : List String) (ren : String → String) (sel : List ℕ)
    (row : List (Option ℚ)) : Option ℚ × Option ℚ :=
  sel.foldl
    (fun acc k =>
      match cols.get? k with
      | some name =>
          if ren name == "lat" then ((row.get? k).join, acc.2)
          else if ren name == "lon" then (acc.1, (row.get? k).join)
          else acc
      | none => acc)
    (none, none)

/-- Lines 24-30 of the source: normalize the column names, locate the first
name containing "lat" and the first containing "lon"
(`next((c for c in df_upload.columns if 'lat' in c), None)` - these are
LABELS), and when both exist run
`df[[lat_col, lon_col]].dropna().head(100).rename(...).to_dict('records')`
with pandas label semantics: the selection takes every column bearing
`lat_col` then every column bearing `lon_col` (`idxsOfLabel`), `dropna`
drops a row with a missing value in ANY selected column, the cap follows,
the rename dict relabels every selected column (collapsing when
`lat_col == lon_col`), and the records collapse duplicate names keeping
the last. Returns `none` when either label is missing (the
`if lat_col and lon_col` guard fails; a found label contains "lat"/"lon"
so it is non-empty and truthy). A cell index beyond the row length is
treated as missing. -/
def ingestRecords (t : Table) : Option (List (Option ℚ × Option ℚ)) :=
  let cols := normCols t
  match cols.find? (fun c => pyContains "lat" c),
        cols.find? (fun c => pyContains "lon" c) with
  | some lat_col, some lon_col =>
      let sel := idxsOfLabel cols lat_col ++ idxsOfLabel cols lon_col
      let kept := t.rows.filter fun row =>
        sel.all fun k => ((row.get? k).join).isSome
      let capped := kept.take 100
      some (capped.map (recordOfRow cols (renameMap lat_col lon_col) sel))
  | _, _ => none

/-- The imported records as `Point`s, for the session-state model: in the
program the stored records are Python dicts; whenever both matched labels
are distinct and each labels exactly one column every record carries both
fields and this is exact, while on a degenerate table (one column matching
both needles) the program's records lack the lat key and the missing field
is rendered here as 0. `none` exactly when `ingestRecords` is `none`, i.e.
when the column guard fails. -/
def loadExcelPoints (t : Table) : Option (List Point) :=
  (ingestRecords t).map fun rs =>
    rs.map fun r => Point.mk (r.1.getD 0) (r.2.getD 0)

/-- The message the upload handler displays: `st.success(f"Loaded ... points.")`
(line 31) or `st.error(f"Excel Error: ...")` (line 32). -/
inductive Msg where
  | loaded (n : ℕ)
  | excelError
deriving DecidableEq, Repr

/-- Lines 22-32: the upload widget handler. The argument `file` is `none`
when `pd.read_excel` raises (corrupt / unreadable file) - that exception is
caught by the `except` clause, which shows an error message and leaves the
state untouched. On a parsed table: if both coordinate columns are found the
imported sequence is REPLACED by the cleaned rows (assignment to
`st.session_state.excel_points`, line 30) and a success message reports the
new count; if either column is missing, nothing at all happens (the `if`
body is skipped and the source has no `else`: no message, no state change). -/
def uploadEvent (s : AppState) (file : Option Table) : AppState × Option Msg :=
  match file with
  | none => (s, some Msg.excelError)
  | some t =>
      match loadExcelPoints t with
      | some pts => ({ s with excel_points := pts }, some (Msg.loaded pts.length))
      | none => (s, none)

/-- Line 38: the "Add Manual Point" button appends one coordinate to the
manual sequence. -/
def addManualPoint (s : AppState) (p : Point) : AppState :=
  { s with manual_points := s.manual_points ++ [p] }

/-- Line 50: `all_points = st.session_state.excel_points +
st.session_state.manual_points` - imported points first, then manual. -/
def allPoints (s : AppState) : List Point :=
  s.excel_points ++ s.manual_points

/-- A JSON value, for the territory-lookup response body and the GeoJSON
export. Per the external-interface contract the `Name` field of a territory
is a string, so string leaves are a dedicated constructor. -/
inductive Json where
  | null
  | bool (b : Bool)
  | num (q : ℚ)
  | str (s : String)
  | arr (xs : List Json)
  | obj (fields : List (String × Json))

/-- Python dict subscript `d[k]` on the field list of a JSON object:
the first binding of the key, if present (a parsed JSON object has at most
one binding per key). -/
def jlookup (k : String) (fields : List (String × Json)) : Option Json :=
  (fields.find? fun p => p.1 == k).map fun p => p.2

/-- One element of the response comprehension (line 59):
`r['properties']['Name']`. Succeeds when `r` is an object with a
`properties` field that is itself an object with a `Name` binding, and
returns the bound value WHATEVER its JSON type - Python's subscripting
returns any present value without inspecting it. It raises (KeyError /
TypeError) only when `r` is not a dict, `properties` is absent, the
`properties` value is not a dict, or `Name` is absent. -/
def getName (r : Json) : Option Json :=
  match r with
  | Json.obj fs =>
      match jlookup "properties" fs with
      | some (Json.obj pf) => jlookup "Name" pf
      | _ => none
  | _ => none

/-- Python iteration `for r in res` over a parsed JSON value: a list yields
its elements, a dict yields its keys (as strings), a string yields its
one-character substrings; numbers, booleans and null are not iterable
(TypeError). -/
def pyElems (j : Json) : Option (List Json) :=
  match j with
  | Json.arr xs => some xs
  | Json.obj fs => some (fs.map fun p => Json.str p.1)
  | Json.str s => some (s.data.map fun c => Json.str (String.singleton c))
  | _ => none

/-- The list comprehension of line 59, element by element: all-or-nothing.
If any element raises in `getName`, the whole comprehension raises and no
partial list is produced; otherwise the list of extracted `Name` values
(of whatever JSON types) is returned. -/
def extractAllValues : List Json → Option (List Json)
  | [] => some []
  | r :: rs =>
      match getName r, extractAllValues rs with
      | some n, some ns => some (n :: ns)
      | _, _ => none

/-- Outcome of `requests.get(...)` on line 58: either the call itself
raised (timeout, connection failure), or a response arrived carrying an
HTTP status code and a body; the body is `none` when `.json()` raises
(malformed JSON) and `some j` when it parses to the value `j`.
Note the source never reads the status code. -/
inductive HttpOutcome where
  | exn
  | resp (status : ℕ) (body : Option Json)

/-- Lines 56-60, value level: `indigenous_names` starts as `[]`; the
try-block re-binds it to the comprehension result only when every step
succeeds (request, JSON parse, iteration, every per-element extraction);
the bare `except: pass` swallows any failure, leaving the initial `[]`
with no surfaced error. The HTTP status is never consulted. The resulting
list holds the extracted `Name` values of whatever JSON type. -/
def lookupResult (o : HttpOutcome) : List Json :=
  match o with
  | HttpOutcome.exn => []
  | HttpOutcome.resp _ none => []
  | HttpOutcome.resp _ (some j) => ((pyElems j).bind extractAllValues).getD []

/-- String restriction of `getName`: the extracted Name value when it is a
string. The display pipeline below is modelled at this restriction because
its report stage interpolates the names with a string join (line 113),
which is defined only for string names (the external interface declares
`Name` a string); a present non-string Name is a successful extraction at
the lookup (see `getName` / `lookupResult`) whose downstream report
rendering is outside this model. -/
def getNameStr (r : Json) : Option String :=
  match getName r with
  | some (Json.str s) => some s
  | _ => none

/-- The comprehension of line 59 at the string restriction: all-or-nothing
over `getNameStr`. -/
def extractAllNames : List Json → Option (List String)
  | [] => some []
  | r :: rs =>
      match getNameStr r, extractAllNames rs with
      | some n, some ns => some (n :: ns)
      | _, _ => none

/-- Lines 56-60 at the string restriction (see `getNameStr`): the
territory-name list feeding the classifier, report and export. -/
def lookupNames (o : HttpOutcome) : List String :=
  match o with
  | HttpOutcome.exn => []
  | HttpOutcome.resp _ none => []
  | HttpOutcome.resp _ (some j) => ((pyElems j).bind extractAllNames).getD []

/-- Lines 52-62: the audit engine. Centroid = sum of latitudes divided by
the point count, likewise for longitudes (lines 53-54), plus the
territory-name list from the lookup. The caller guarantees a non-empty
point list (the `>= 3` guard), so the division is never by zero. -/
def run_compliance_audit (points : List Point) (o : HttpOutcome) :
    ℚ × ℚ × List String :=
  ((points.map Point.lat).sum / (points.length : ℚ),
   (points.map Point.lon).sum / (points.length : ℚ),
   lookupNames o)

/-- Line 70: `[255, 75, 75, 150] if tribes else [34, 139, 34, 150]` -
Python truthiness of a list is non-emptiness. -/
def poly_color (tribes : List String) : List ℕ :=
  match tribes with
  | [] => [34, 139, 34, 150]
  | _ :: _ => [255, 75, 75, 150]

/-- Line 71: `"High Risk" if tribes else "Negligible Risk"`. -/
def risk_label (tribes : List String) : String :=
  match tribes with
  | [] => "Negligible Risk"
  | _ :: _ => "High Risk"

/-- One row of the compliance report table (lines 102-131). -/
structure ReportRow where
  pillar : String
  item : String
  reading : String
  finding : String
  legal : String
deriving DecidableEq, Repr

/-- Lines 102-131: the four fixed report rows. Row 2 (Social Legality)
interpolates `', '.join(tribes) if tribes else 'Clear'` into its reading
and `"Risk Flagged" if tribes else "Negligible Risk"` into its finding;
row 3 interpolates the point count. -/
def report_data (tribes : List String) (nPoints : ℕ) : List ReportRow :=
  [ { pillar := "Environmental Baseline"
    , item := "Forest Cover Status"
    , reading := "Satellite (Sentinel-2) Overlay"
    , finding := "Zero forest-to-agriculture conversion detected."
    , legal := "Satisfies Article 3(a): Ensures the plot is \x27deforestation-free\x27 relative to the 2020 cutoff." }
  , { pillar := "Social Legality"
    , item := "Land Use Rights"
    , reading := "Indigenous Index: " ++
        (match tribes with
         | [] => "Clear"
         | _ :: _ => String.intercalate ", " tribes)
    , finding := match tribes with
        | [] => "Negligible Risk"
        | _ :: _ => "Risk Flagged"
    , legal := "Satisfies Article 3(b): Verifies production complies with local legislation and indigenous rights." }
  , { pillar := "Traceability"
    , item := "Geolocation Mandate"
    , reading := toString nPoints ++ " Survey Vertices"
    , finding := "WGS84 Compliant"
    , legal := "Satisfies Article 9: Provides specific geolocation coordinates required for EU market entry." }
  , { pillar := "Data Integrity"
    , item := "Geometry Topology"
    , reading := "Closed Polygon Loop"
    , finding := "Valid for TRACES"
    , legal := "Ensures the data structure is interoperable with EU Trade Control and Expert Systems (TRACES)." } ]

/-- The Social Legality row finding, as displayed: the second row of the
report table. -/
def socialFinding (tribes : List String) (nPoints : ℕ) : Option String :=
  ((report_data tribes nPoints).get? 1).map ReportRow.finding

/-- Line 137, geometry coordinates ring: the ordered (lon, lat) pairs of
the point list with the first pair appended again
(`[[p['lon'], p['lat']] for p in all_points] + [[all_points[0]['lon'],
all_points[0]['lat']]]`). The source indexes `all_points[0]` only under the
`len >= 3` guard; on the empty list Python would raise, here `headD`
supplies an unused default. -/
def closedRing (pts : List Point) : List Json :=
  (pts.map fun p => Json.arr [Json.num p.lon, Json.num p.lat]) ++
    [Json.arr [Json.num (pts.headD (Point.mk 0 0)).lon,
               Json.num (pts.headD (Point.mk 0 0)).lat]]

/-- Line 137: the exported GeoJSON value `gj` - a FeatureCollection with a
single Polygon feature whose ring is `closedRing` and whose properties
carry the risk label and the territory-name list. -/
def gjExport (pts : List Point) (risk : String) (tribes : List String) : Json :=
  Json.obj
    [ ("type", Json.str "FeatureCollection")
    , ("features", Json.arr
        [ Json.obj
            [ ("type", Json.str "Feature")
            , ("geometry", Json.obj
                [ ("type", Json.str "Polygon")
                , ("coordinates", Json.arr [Json.arr (closedRing pts)]) ])
            , ("properties", Json.obj
                [ ("risk", Json.str risk)
                , ("tribes", Json.arr (tribes.map Json.str)) ]) ] ]) ]

/-- Everything the main branch produces (lines 66-138): the classifier
outputs driving the map, the map view centre and (unclosed) renderer ring,
the report table and the export payload. -/
structure Output where
  fill : List ℕ
  risk : String
  centre : ℚ × ℚ
  rendererRing : List Json
  report : List ReportRow
  exported : Json

/-- Lines 65-141: the main display. With fewer than 3 combined points
nothing is computed and only the placeholder info message is shown
(`none`); with 3 or more points the audit runs and the map, report and
export are all produced. -/
def mainDisplay (s : AppState) (o : HttpOutcome) : Option Output :=
  let pts := allPoints s
  if 3 ≤ pts.length then
    let r := run_compliance_audit pts o
    let tribes := r.2.2
    some
      { fill := poly_color tribes
      , risk := risk_label tribes
      , centre := (r.1, r.2.1)
      , rendererRing := pts.map fun p => Json.arr [Json.num p.lon, Json.num p.lat]
      , report := report_data tribes pts.length
      , exported := gjExport pts (risk_label tribes) tribes }
  else
    none

/-- Spec-side definition (the words of the spec, for comparison with the
source's centroid formula): the arithmetic mean of a list of rationals. -/
def arithmeticMean (xs : List ℚ) : ℚ :=
  xs.sum / (xs.length : ℚ)

/-- Spec-side reading of "red-family": the red channel strictly dominates
green and blue. -/
def redFamily (c : List ℕ) : Prop :=
  c.getD 1 0 < c.getD 0 0 ∧ c.getD 2 0 < c.getD 0 0

/-- Spec-side reading of "green-family": the green channel strictly
dominates red and blue. -/
def greenFamily (c : List ℕ) : Prop :=
  c.getD 0 0 < c.getD 1 0 ∧ c.getD 2 0 < c.getD 1 0

/-- Spec-side reading of "translucent": the alpha channel is strictly
between fully transparent and fully opaque. -/
def translucentFill (c : List ℕ) : Prop :=
  0 < c.getD 3 0 ∧ c.getD 3 0 < 255

/-- Helper: the pandas pipeline `df[[lat, lon]].dropna()` applied to the
rows of a table at column indices `i` and `j` - the rows restricted to
those two cells, keeping only rows where both are present. -/
def cleanedRows (t : Table) (i j : ℕ) : List (Option ℚ × Option ℚ) :=
  (t.rows.map fun r => ((r.get? i).join, (r.get? j).join)).filter
    fun p => p.1.isSome && p.2.isSome

/-- Helper: appending a single element fixes the last element of a list. -/
theorem last_of_append_singleton {α : Type} (l : List α) (y : α) :
    (l ++ [y]).getLast? = some y := by
  rw [List.getLast?_append_cons]
  rfl

/-- C1: the risk classifier is an exact, deterministic two-way mapping on
the territory-name list: every non-empty list yields label "High Risk", the
red-family translucent fill [255, 75, 75, 150] and Social-Legality finding
"Risk Flagged"; the empty list yields "Negligible Risk", the green-family
translucent fill [34, 139, 34, 150] and finding "Negligible Risk" -
exhaustive over the two cases. -/
theorem C1_risk_classifier_two_way (tribes : List String) (n : ℕ) :
    (tribes ≠ [] →
      risk_label tribes = "High Risk" ∧
      poly_color tribes = [255, 75, 75, 150] ∧
      redFamily (poly_color tribes) ∧
      translucentFill (poly_color tribes) ∧
      socialFinding tribes n = some "Risk Flagged") ∧
    (tribes = [] →
      risk_label tribes = "Negligible Risk" ∧
      poly_color tribes = [34, 139, 34, 150] ∧
      greenFamily (poly_color tribes) ∧
      translucentFill (poly_color tribes) ∧
      socialFinding tribes n = some "Negligible Risk") := by
  cases tribes with
  | nil =>
      refine ⟨fun h => absurd rfl h, fun _ => ?_⟩
      refine ⟨rfl, rfl, ?_, ?_, rfl⟩ <;>
        simp [greenFamily, translucentFill, poly_color]
  | cons a l =>
      refine ⟨fun _ => ?_, fun h => by cases h⟩
      refine ⟨rfl, rfl, ?_, ?_, rfl⟩ <;>
        simp [redFamily, translucentFill, poly_color]

/-- Witness for C1 at a concrete non-empty and the empty list. -/
theorem C1_risk_classifier_two_way_witness :
    (risk_label ["Haida"] = "High Risk" ∧
      poly_color ["Haida"] = [255, 75, 75, 150] ∧
      redFamily (poly_color ["Haida"]) ∧
      translucentFill (poly_color ["Haida"]) ∧
      socialFinding ["Haida"] 3 = some "Risk Flagged") ∧
    (risk_label [] = "Negligible Risk" ∧
      poly_color [] = [34, 139, 34, 150] ∧
      greenFamily (poly_color []) ∧
      translucentFill (poly_color []) ∧
      socialFinding [] 3 = some "Negligible Risk") :=
  ⟨(C1_risk_classifier_two_way ["Haida"] 3).1 (by simp),
   (C1_risk_classifier_two_way [] 3).2 rfl⟩

/-- C2: for every point collection with at least 3 points, the centroid
latitude computed by the audit engine equals the arithmetic mean of all
point latitudes, and likewise for longitudes, over the combined
imported-then-manual sequence. -/
theorem C2_centroid_is_arithmetic_mean (excel manual : List Point)
    (o : HttpOutcome) (h : 3 ≤ (excel ++ manual).length) :
    (run_compliance_audit (excel ++ manual) o).1 =
      arithmeticMean ((excel ++ manual).map Point.lat) ∧
    (run_compliance_audit (excel ++ manual) o).2.1 =
      arithmeticMean ((excel ++ manual).map Point.lon) := by
  constructor <;>
    simp [run_compliance_audit, arithmeticMean, List.length_map]

/-- Witness for C2 at a concrete 3-point collection (two imported, one
manual) with the lookup timing out. -/
theorem C2_centroid_is_arithmetic_mean_witness :
    3 ≤ (([Point.mk 1 10, Point.mk 2 20] ++ [Point.mk 3 30]).length) ∧
    (run_compliance_audit ([Point.mk 1 10, Point.mk 2 20] ++ [Point.mk 3 30])
        HttpOutcome.exn).1 = arithmeticMean [1, 2, 3] ∧
    (run_compliance_audit ([Point.mk 1 10, Point.mk 2 20] ++ [Point.mk 3 30])
        HttpOutcome.exn).2.1 = arithmeticMean [10, 20, 30] := by
  have h := C2_centroid_is_arithmetic_mean [Point.mk 1 10, Point.mk 2 20]
    [Point.mk 3 30] HttpOutcome.exn (by decide)
  exact ⟨by decide, by simpa using h.1, by simpa using h.2⟩

/-- C3: for n >= 3 points the export is a FeatureCollection with exactly one
Polygon feature whose ring is the ordered (lon, lat) list with the first
point appended again: the ring closes (last pair = first pair), has length
n + 1, and the properties carry the risk label and territory-name list. -/
theorem C3_export_single_closed_polygon (pts : List Point) (risk : String)
    (tribes : List String) (h : 3 ≤ pts.length) :
    gjExport pts risk tribes = Json.obj
      [ ("type", Json.str "FeatureCollection")
      , ("features", Json.arr
          [ Json.obj
              [ ("type", Json.str "Feature")
              , ("geometry", Json.obj
                  [ ("type", Json.str "Polygon")
                  , ("coordinates", Json.arr [Json.arr (closedRing pts)]) ])
              , ("properties", Json.obj
                  [ ("risk", Json.str risk)
                  , ("tribes", Json.arr (tribes.map Json.str)) ]) ] ]) ] ∧
    (closedRing pts).length = pts.length + 1 ∧
    (closedRing pts).getLast? = (closedRing pts).head? := by
  refine ⟨rfl, by simp [closedRing], ?_⟩
  cases pts with
  | nil => exact absurd h (by decide)
  | cons p ps =>
      simp only [closedRing]
      rw [last_of_append_singleton]
      simp

/-- Witness for C3 at a concrete triangle. -/
theorem C3_export_single_closed_polygon_witness :
    3 ≤ ([Point.mk 0 0, Point.mk 0 1, Point.mk 1 0].length) ∧
    (closedRing [Point.mk 0 0, Point.mk 0 1, Point.mk 1 0]).length =
      [Point.mk 0 0, Point.mk 0 1, Point.mk 1 0].length + 1 ∧
    (closedRing [Point.mk 0 0, Point.mk 0 1, Point.mk 1 0]).getLast? =
      (closedRing [Point.mk 0 0, Point.mk 0 1, Point.mk 1 0]).head? := by
  have h := C3_export_single_closed_polygon
    [Point.mk 0 0, Point.mk 0 1, Point.mk 1 0] "High Risk" ["Haida"] (by decide)
  exact ⟨by decide, h.2.1, h.2.2⟩

/-- C4 counterexample: the claim says any non-200 HTTP status yields the
empty territory list, but the source never inspects the status code: a 404
response whose body is a well-formed JSON array of objects carrying
properties.Name yields those Name values, not the empty list. -/
theorem C4_counterexample_status_ignored :
    lookupResult (HttpOutcome.resp 404 (some (Json.arr
      [Json.obj [("properties", Json.obj [("Name", Json.str "Haida")])]]))) =
      [Json.str "Haida"] ∧ (404 : ℕ) ≠ 200 :=
  ⟨rfl, by decide⟩

/-- C4 (amended): every lookup failure that raises - the request raising
(timeout / connection error), a body that fails JSON parsing, a
non-iterable parsed body, or an element whose properties/Name subscripting
raises (no properties key, a non-dict properties value, or no Name key) -
yields the empty territory list with no surfaced error; the HTTP status
code is never inspected, so this holds for every status alike. A PRESENT
Name of any JSON type is a successful extraction, not a failure, so such a
body is excluded from the hypothesis. -/
theorem C4_raising_failures_fail_open (s : ℕ) (j : Json)
    (h : (pyElems j).bind extractAllValues = none) :
    lookupResult HttpOutcome.exn = [] ∧
    lookupResult (HttpOutcome.resp s none) = [] ∧
    lookupResult (HttpOutcome.resp s (some j)) = [] := by
  refine ⟨rfl, rfl, ?_⟩
  simp [lookupResult, h]

/-- Witness for C4 (amended): status 500 with a non-iterable JSON body. -/
theorem C4_raising_failures_fail_open_witness :
    lookupResult HttpOutcome.exn = [] ∧
    lookupResult (HttpOutcome.resp 500 none) = [] ∧
    lookupResult (HttpOutcome.resp 500 (some (Json.num 3))) = [] :=
  C4_raising_failures_fail_open 500 (Json.num 3) rfl

/-- C5: with 0, 1 or 2 total points the main display produces nothing (the
placeholder branch; in particular the centroid division is never run), and
with 3 or more points the map, report and export are all produced. -/
theorem C5_threshold_guard (s : AppState) (o : HttpOutcome) :
    ((allPoints s).length ≤ 2 → mainDisplay s o = none) ∧
    (3 ≤ (allPoints s).length → (mainDisplay s o).isSome = true) := by
  constructor <;> intro h
  · have hn : ¬ 3 ≤ (allPoints s).length := by omega
    simp [mainDisplay, hn]
  · simp [mainDisplay, h]

/-- Witness for C5: a 2-point state yields the placeholder, a 3-point state
yields the full output. -/
theorem C5_threshold_guard_witness :
    mainDisplay (AppState.mk [Point.mk 0 0] [Point.mk 1 1]) HttpOutcome.exn =
      none ∧
    (mainDisplay (AppState.mk [Point.mk 0 0, Point.mk 1 1] [Point.mk 2 2])
      HttpOutcome.exn).isSome = true :=
  ⟨(C5_threshold_guard (AppState.mk [Point.mk 0 0] [Point.mk 1 1])
      HttpOutcome.exn).1 (by decide),
   (C5_threshold_guard (AppState.mk [Point.mk 0 0, Point.mk 1 1]
      [Point.mk 2 2]) HttpOutcome.exn).2 (by decide)⟩

/-- Helper: a position listed by `idxsOfLabel` really bears that label. -/
theorem get_of_idxsOfLabel {cols : List String} {a : String} {k : ℕ}
    (h : k ∈ idxsOfLabel cols a) : cols.get? k = some a := by
  simp only [idxsOfLabel] at h
  exact eq_of_beq (List.mem_filter.mp h).2

/-- C6 counterexample: the claim says the imported points come from "the
first column whose name contains lat" and are "renamed to the
latitude/longitude fields", but pandas selects by LABEL: with columns
Lat / LAT / lon (normalizing to the duplicate label "lat" twice) the
selection spans both duplicates and the record keeps the LAST duplicate's
latitude 99, not the first column's 1; and with a single column "latlon"
matching both needles the rename dict collapses to lon, so the imported
record carries no latitude field at all. -/
theorem C6_counterexample_label_selection :
    ingestRecords (Table.mk ["Lat", "LAT", "lon"]
        [[some 1, some 99, some 10]]) = some [(some 99, some 10)] ∧
    (some (99 : ℚ) ≠ some (1 : ℚ)) ∧
    ingestRecords (Table.mk ["latlon", "x"] [[some 7, some 8]]) =
      some [(none, some 7)] :=
  ⟨rfl, by decide, rfl⟩

/-- C6 (amended): ingestion lowercases and trims the column names and picks
the first name containing "lat" and the first containing "lon"; when both
exist, the two matched names are distinct, and each matched name labels
exactly one column (positions i and j), the imported record sequence is
exactly the first up-to-100 rows of those two columns that have
non-missing values in both - missing-value rows dropped BEFORE the 100-row
cap - renamed to the latitude/longitude fields, and at most 100 records
are ever imported. (With duplicate matched labels the selection spans
every duplicate - rows are dropped on any of them and the last duplicate's
value is kept - and when one column matches both needles the records lack
the latitude field; see the counterexample.) -/
theorem C6_nondegenerate_ingestion (t : Table) (la lo : String) (i j : ℕ)
    (hlat : (normCols t).find? (fun c => pyContains "lat" c) = some la)
    (hlon : (normCols t).find? (fun c => pyContains "lon" c) = some lo)
    (hdiff : la ≠ lo)
    (hia : idxsOfLabel (normCols t) la = [i])
    (hja : idxsOfLabel (normCols t) lo = [j]) :
    ingestRecords t = some ((cleanedRows t i j).take 100) ∧
    loadExcelPoints t = some (((cleanedRows t i j).take 100).map
      fun p => Point.mk (p.1.getD 0) (p.2.getD 0)) ∧
    (∀ r ∈ (cleanedRows t i j).take 100,
      r.1.isSome = true ∧ r.2.isSome = true) ∧
    ∀ rs, ingestRecords t = some rs → rs.length ≤ 100 := by
  have hci : (normCols t).get? i = some la :=
    get_of_idxsOfLabel (by rw [hia]; exact List.mem_singleton_self i)
  have hcj : (normCols t).get? j = some lo :=
    get_of_idxsOfLabel (by rw [hja]; exact List.mem_singleton_self j)
  have hci2 : (normCols t)[i]? = some la := by
    rw [← List.get?_eq_getElem?]
    exact hci
  have hcj2 : (normCols t)[j]? = some lo := by
    rw [← List.get?_eq_getElem?]
    exact hcj
  have hrecF : recordOfRow (normCols t) (renameMap la lo) [i, j] =
      fun row : List (Option ℚ) => ((row.get? i).join, (row.get? j).join) := by
    funext row
    simp [recordOfRow, renameMap, hci2, hcj2, hdiff]
  have hfe : (t.rows.filter fun row =>
        [i, j].all fun k => ((row.get? k).join).isSome) =
      t.rows.filter fun row =>
        ((row.get? i).join).isSome && ((row.get? j).join).isSome := by
    apply List.filter_congr
    intro row _
    simp [List.all]
  have hclean : cleanedRows t i j =
      (t.rows.filter fun row =>
        ((row.get? i).join).isSome && ((row.get? j).join).isSome).map
        fun row => ((row.get? i).join, (row.get? j).join) := by
    simp only [cleanedRows]
    rw [List.filter_map]
    rfl
  have hmain : ingestRecords t = some ((cleanedRows t i j).take 100) := by
    simp only [ingestRecords, hlat, hlon, hia, hja, List.singleton_append]
    rw [hrecF, List.map_take, hfe, hclean]
  refine ⟨hmain, ?_, ?_, ?_⟩
  · simp [loadExcelPoints, hmain]
  · intro r hr
    have hr2 : r ∈ cleanedRows t i j := List.take_subset 100 _ hr
    rw [hclean] at hr2
    rcases List.mem_map.mp hr2 with ⟨row, hrow, hreq⟩
    have hrowf := (List.mem_filter.mp hrow).2
    rw [← hreq]
    exact ⟨(Bool.and_eq_true_iff.mp hrowf).1, (Bool.and_eq_true_iff.mp hrowf).2⟩
  · intro rs hrs
    rw [hmain] at hrs
    have : rs = (cleanedRows t i j).take 100 :=
      (Option.some.injEq _ _).mp hrs.symm
    subst this
    simpa using List.length_take_le 100 (cleanedRows t i j)

/-- Witness for C6 (amended): the spec scenario - columns Lat / Long (two
distinct, uniquely borne labels), five valid rows plus one row with a
missing latitude, yielding exactly the five valid records / points. -/
theorem C6_nondegenerate_ingestion_witness :
    (normCols (Table.mk ["Lat", "Long"]
        [ [some 1, some 10], [some 2, some 20], [none, some 30],
          [some 4, some 40], [some 5, some 50], [some 6, some 60] ])).find?
      (fun c => pyContains "lat" c) = some "lat" ∧
    (normCols (Table.mk ["Lat", "Long"]
        [ [some 1, some 10], [some 2, some 20], [none, some 30],
          [some 4, some 40], [some 5, some 50], [some 6, some 60] ])).find?
      (fun c => pyContains "lon" c) = some "long" ∧
    "lat" ≠ "long" ∧
    idxsOfLabel (normCols (Table.mk ["Lat", "Long"]
        [ [some 1, some 10], [some 2, some 20], [none, some 30],
          [some 4, some 40], [some 5, some 50], [some 6, some 60] ]))
      "lat" = [0] ∧
    idxsOfLabel (normCols (Table.mk ["Lat", "Long"]
        [ [some 1, some 10], [some 2, some 20], [none, some 30],
          [some 4, some 40], [some 5, some 50], [some 6, some 60] ]))
      "long" = [1] ∧
    ingestRecords (Table.mk ["Lat", "Long"]
        [ [some 1, some 10], [some 2, some 20], [none, some 30],
          [some 4, some 40], [some 5, some 50], [some 6, some 60] ]) =
      some [(some 1, some 10), (some 2, some 20), (some 4, some 40),
            (some 5, some 50), (some 6, some 60)] ∧
    loadExcelPoints (Table.mk ["Lat", "Long"]
        [ [some 1, some 10], [some 2, some 20], [none, some 30],
          [some 4, some 40], [some 5, some 50], [some 6, some 60] ]) =
      some [Point.mk 1 10, Point.mk 2 20, Point.mk 4 40, Point.mk 5 50,
            Point.mk 6 60] := by
  refine ⟨by decide, by decide, by decide, by decide, by decide, ?_, ?_⟩
  · have h := (C6_nondegenerate_ingestion (Table.mk ["Lat", "Long"]
      [ [some 1, some 10], [some 2, some 20], [none, some 30],
        [some 4, some 40], [some 5, some 50], [some 6, some 60] ])
      "lat" "long" 0 1 (by decide) (by decide) (by decide) (by decide)
      (by decide)).1
    rw [h]
    decide
  · have h := (C6_nondegenerate_ingestion (Table.mk ["Lat", "Long"]
      [ [some 1, some 10], [some 2, some 20], [none, some 30],
        [some 4, some 40], [some 5, some 50], [some 6, some 60] ])
      "lat" "long" 0 1 (by decide) (by decide) (by decide) (by decide)
      (by decide)).2.1
    rw [h]
    decide

/-- C7: every successful upload replaces the whole imported sequence
(overwrite, not append) and leaves the manual sequence untouched, so
uploading the same file twice leaves the state of the first upload
unchanged (idempotence per upload). -/
theorem C7_upload_replaces_idempotent (s : AppState) (t : Table)
    (pts : List Point) (h : loadExcelPoints t = some pts) :
    (uploadEvent s (some t)).1.excel_points = pts ∧
    (uploadEvent s (some t)).1.manual_points = s.manual_points ∧
    (uploadEvent (uploadEvent s (some t)).1 (some t)).1 =
      (uploadEvent s (some t)).1 := by
  simp [uploadEvent, h]

/-- Witness for C7: re-uploading a concrete two-row file onto a state that
already holds imported and manual points. -/
theorem C7_upload_replaces_idempotent_witness :
    loadExcelPoints (Table.mk ["lat", "lon"] [[some 7, some 70]]) =
      some [Point.mk 7 70] ∧
    (uploadEvent (AppState.mk [Point.mk 9 9] [Point.mk 8 8])
        (some (Table.mk ["lat", "lon"] [[some 7, some 70]]))).1.excel_points =
      [Point.mk 7 70] ∧
    (uploadEvent (AppState.mk [Point.mk 9 9] [Point.mk 8 8])
        (some (Table.mk ["lat", "lon"] [[some 7, some 70]]))).1.manual_points =
      [Point.mk 9 9] ∧
    (uploadEvent (uploadEvent (AppState.mk [Point.mk 9 9] [Point.mk 8 8])
        (some (Table.mk ["lat", "lon"] [[some 7, some 70]]))).1
        (some (Table.mk ["lat", "lon"] [[some 7, some 70]]))).1 =
      (uploadEvent (AppState.mk [Point.mk 9 9] [Point.mk 8 8])
        (some (Table.mk ["lat", "lon"] [[some 7, some 70]]))).1 := by
  have h := C7_upload_replaces_idempotent
    (AppState.mk [Point.mk 9 9] [Point.mk 8 8])
    (Table.mk ["lat", "lon"] [[some 7, some 70]]) [Point.mk 7 70] (by decide)
  exact ⟨by decide, h.1, h.2.1, h.2.2⟩

/-- C8 counterexample: the claim says every ingestion error shows a
user-visible message, but on a parsed table with no latitude/longitude
column the handler's `if` body is simply skipped (the source has no else
branch): the state is unchanged AND no message at all is displayed. -/
theorem C8_counterexample_missing_column_silent :
    uploadEvent (AppState.mk [Point.mk 1 1] [Point.mk 2 2])
        (some (Table.mk ["x", "y"] [[some 1, some 2]])) =
      (AppState.mk [Point.mk 1 1] [Point.mk 2 2], none) := by
  decide

/-- C8 (amended): every ingestion error - a parse exception on a
malformed/unreadable spreadsheet, or a table with no latitude or longitude
column - leaves both point sequences unchanged and is caught rather than
crashing the session; a user-visible error message is shown for parse
exceptions, but the missing-column case shows no message at all. -/
theorem C8_ingestion_errors_leave_state (s : AppState) (t : Table)
    (hmiss : loadExcelPoints t = none) :
    uploadEvent s none = (s, some Msg.excelError) ∧
    uploadEvent s (some t) = (s, none) := by
  refine ⟨rfl, ?_⟩
  simp [uploadEvent, hmiss]

/-- Witness for C8 (amended): a parse failure and a no-coordinate-column
table against a concrete non-empty state. -/
theorem C8_ingestion_errors_leave_state_witness :
    uploadEvent (AppState.mk [Point.mk 1 1] [Point.mk 2 2]) none =
      (AppState.mk [Point.mk 1 1] [Point.mk 2 2], some Msg.excelError) ∧
    uploadEvent (AppState.mk [Point.mk 1 1] [Point.mk 2 2])
        (some (Table.mk ["a", "b"] [[some 3, some 4]])) =
      (AppState.mk [Point.mk 1 1] [Point.mk 2 2], none) :=
  C8_ingestion_errors_leave_state (AppState.mk [Point.mk 1 1] [Point.mk 2 2])
    (Table.mk ["a", "b"] [[some 3, some 4]]) (by decide)

/-- C9: an upload whose lat/lon columns are found but where zero rows
survive the missing-value filter still counts as a successful upload: the
imported sequence is replaced by the empty sequence - erasing previously
imported points - and the success message reports 0 loaded points. -/
theorem C9_zero_row_upload_erases (s : AppState) (t : Table)
    (h : loadExcelPoints t = some []) :
    uploadEvent s (some t) = ({ s with excel_points := [] },
      some (Msg.loaded 0)) := by
  simp [uploadEvent, h]

/-- Witness for C9: a header-only Lat/Lon sheet uploaded onto a state with
previously imported points. -/
theorem C9_zero_row_upload_erases_witness :
    loadExcelPoints (Table.mk ["lat", "lon"] [[none, some 1], [some 2, none]]) =
      some [] ∧
    uploadEvent (AppState.mk [Point.mk 5 5] [Point.mk 6 6])
        (some (Table.mk ["lat", "lon"] [[none, some 1], [some 2, none]])) =
      (AppState.mk [Point.mk 5 5] [], some (Msg.loaded 0)) := by
  refine ⟨by decide, ?_⟩
  have h := C9_zero_row_upload_erases (AppState.mk [Point.mk 5 5] [Point.mk 6 6])
    (Table.mk ["lat", "lon"] [[none, some 1], [some 2, none]]) (by decide)
  exact h

/-- C10: the lookup extraction is all-or-nothing: if the response body is a
JSON array in which any single element lacks the properties or Name field
(its `r['properties']['Name']` subscripting raises), the whole territory
list is empty - no partial prefix of successfully extracted names is kept.
An element whose Name is present, of whatever JSON type, is NOT such a
failure. -/
theorem C10_value_extraction_all_or_nothing (status : ℕ) (xs : List Json)
    (r : Json) (hr : r ∈ xs) (hn : getName r = none) :
    lookupResult (HttpOutcome.resp status (some (Json.arr xs))) = [] := by
  have hall : extractAllValues xs = none := by
    induction xs with
    | nil => exact absurd hr (List.not_mem_nil r)
    | cons a l ih =>
        rcases List.mem_cons.mp hr with h1 | h2
        · subst h1
          simp [extractAllValues, hn]
        · have hl := ih h2
          cases hga : getName a <;> simp [extractAllValues, hga, hl]
  simp [lookupResult, pyElems, hall]

/-- Witness for C10: a two-element array whose second element lacks the
Name field - the successfully extractable first name is NOT kept. -/
theorem C10_value_extraction_all_or_nothing_witness :
    (Json.obj [("properties", Json.obj [])]) ∈
      [Json.obj [("properties", Json.obj [("Name", Json.str "Haida")])],
       Json.obj [("properties", Json.obj [])]] ∧
    getName (Json.obj [("properties", Json.obj [])]) = none ∧
    lookupResult (HttpOutcome.resp 200 (some (Json.arr
      [Json.obj [("properties", Json.obj [("Name", Json.str "Haida")])],
       Json.obj [("properties", Json.obj [])]]))) = [] := by
  refine ⟨List.mem_cons_of_mem _ (List.mem_cons_self _ _), rfl, ?_⟩
  exact C10_value_extraction_all_or_nothing 200
    [Json.obj [("properties", Json.obj [("Name", Json.str "Haida")])],
     Json.obj [("properties", Json.obj [])]]
    (Json.obj [("properties", Json.obj [])])
    (List.mem_cons_of_mem _ (List.mem_cons_self _ _)) rfl

end EudrApp
